import Mathlib

/-!
Verification of the physixx 2D rigid-body physics core.

This file gives a shallow embedding of the collision-detection and
impulse-resolution code of the repository (files `src/collider.rs`,
`src/rigid_body.rs`, `src/object.rs` and the inlined copies in
`src/main.rs`) and proves the frozen claims about it.

Modelling conventions:
* Rust `f32` values are modelled as real numbers (`ℝ`).  Division is
  Mathlib's total division, so an IEEE division by zero (which yields a
  non-finite float) appears in the model as a division whose result is `0`;
  wherever that matters the theorems talk about the divisor explicitly.
* `glam`'s `Vec2` is modelled by the structure `Vec2` below with explicit
  component arithmetic (`Vec2.add`, `Vec2.sub`, `Vec2.smul`, `Vec2.divs`,
  `Vec2.dot`, `Vec2.length`), matching the componentwise semantics of the
  Rust operators.
* `approx::abs_diff_eq!(x, 0.0)` compares with the default epsilon
  `f32::EPSILON = 2⁻²³`; `fEPS` below is that constant.
* The render-only fields of `Object` (`color`, `name`) are out of scope per
  the spec and are omitted from the model.
-/

noncomputable section

open scoped Classical

/-- 2D vector with real components, modelling `glam::Vec2`. -/
@[ext]
structure Vec2 where
  x : ℝ
  y : ℝ

/-- Componentwise addition (`Vec2 + Vec2`). -/
def Vec2.add (u v : Vec2) : Vec2 := ⟨u.x + v.x, u.y + v.y⟩

/-- Componentwise subtraction (`Vec2 - Vec2`). -/
def Vec2.sub (u v : Vec2) : Vec2 := ⟨u.x - v.x, u.y - v.y⟩

/-- Componentwise negation (`-Vec2`). -/
def Vec2.neg (v : Vec2) : Vec2 := ⟨-v.x, -v.y⟩

/-- Scalar multiplication (`f32 * Vec2` / `Vec2 * f32`). -/
def Vec2.smul (c : ℝ) (v : Vec2) : Vec2 := ⟨c * v.x, c * v.y⟩

/-- Division of a vector by a scalar (`Vec2 / f32`). -/
def Vec2.divs (v : Vec2) (c : ℝ) : Vec2 := ⟨v.x / c, v.y / c⟩

/-- Dot product (`Vec2::dot`). -/
def Vec2.dot (u v : Vec2) : ℝ := u.x * v.x + u.y * v.y

/-- The zero vector (`Vec2::ZERO`). -/
def Vec2.zero : Vec2 := ⟨0, 0⟩

/-- The positive x axis (`Vec2::X`). -/
def Vec2.unitX : Vec2 := ⟨1, 0⟩

/-- The positive y axis (`Vec2::Y`). -/
def Vec2.unitY : Vec2 := ⟨0, 1⟩

/-- Euclidean length (`Vec2::length`). -/
def Vec2.length (v : Vec2) : ℝ := Real.sqrt (v.x ^ 2 + v.y ^ 2)

/-- Distance between two points (`Vec2::distance`, i.e. `(self - rhs).length()`). -/
def Vec2.distance (u v : Vec2) : ℝ := Vec2.length (Vec2.sub u v)

/-- `Vec2::normalize`: the vector divided by its length (degenerate for the
zero vector, where glam produces non-finite components; the model's total
division returns the zero vector there). -/
def Vec2.normalize (v : Vec2) : Vec2 := Vec2.divs v (Vec2.length v)

/-- The `Collider` enum of `src/collider.rs`: a circle (offset, radius) or an
axis-aligned box (local min, local max), both relative to the owning body. -/
inductive Collider where
  | circle (offset : Vec2) (radius : ℝ)
  | aabb (boxMin boxMax : Vec2)

/-- The `Contact` struct of `src/main.rs` (lines 676–685). -/
structure Contact where
  point : Vec2
  normal : Vec2
  pen_depth : ℝ
  body_a_index : ℕ
  body_b_index : ℕ

/-- The `RigidBody2D` struct of `src/rigid_body.rs` (lines 124–139); the copy
in `src/main.rs` lacks the `mu` field, which the solver never reads. -/
structure RigidBody2D where
  position : Vec2
  angle : ℝ
  angular_vel : ℝ
  vel : Vec2
  accum_force : Vec2
  accum_torque : ℝ
  inverse_mass : ℝ
  inverse_inertia : ℝ
  is_static : Bool
  restitution : ℝ
  mu : ℝ

/-- The `Object` struct of `src/object.rs`, restricted to the fields the
physics core reads (`color` and `name` are render-only). -/
structure Object where
  body : Option RigidBody2D
  collider : Option Collider

/-- `RigidBody2D::apply_force` (`src/rigid_body.rs` lines 142–144). -/
def RigidBody2D.apply_force (b : RigidBody2D) (force : Vec2) : RigidBody2D :=
  { b with accum_force := Vec2.add b.accum_force force }

/-- `RigidBody2D::apply_impulse` (`src/rigid_body.rs` lines 146–148):
`vel += impulse * inverse_mass`. -/
def RigidBody2D.apply_impulse (b : RigidBody2D) (impulse : Vec2) : RigidBody2D :=
  { b with vel := Vec2.add b.vel (Vec2.smul b.inverse_mass impulse) }

/-- `RigidBody2D::update` (`src/rigid_body.rs` lines 151–175): semi-implicit
Euler; no-op when the inverse mass is zero or the body is static; resets the
accumulated force and torque afterwards. -/
def RigidBody2D.update (b : RigidBody2D) (dt : ℝ) : RigidBody2D :=
  if b.inverse_mass = 0 ∨ b.is_static = true then b
  else
    let new_vel := Vec2.add b.vel (Vec2.smul (dt * b.inverse_mass) b.accum_force)
    let new_pos := Vec2.add b.position (Vec2.smul dt new_vel)
    let new_ang_vel := b.angular_vel + dt * b.inverse_inertia * b.accum_torque
    let new_angle := b.angle + new_ang_vel * dt
    { b with
      position := new_pos
      angle := new_angle
      angular_vel := new_ang_vel
      vel := new_vel
      accum_force := Vec2.zero
      accum_torque := 0 }

/-- `point_aabb_nearest_point` (`src/collider.rs` lines 12–46), specialised to
the AABB data `(boxMin, boxMax)` that every call site pattern-matches out (the
source panics on a non-AABB argument, a branch unreachable from its callers). -/
def point_aabb_nearest_point (point : Vec2) (boxMin boxMax : Vec2)
    (bodyPos : Vec2) : Vec2 :=
  let world_min := Vec2.add bodyPos boxMin
  let world_max := Vec2.add bodyPos boxMax
  let nx :=
    if point.x ≤ world_max.x ∧ point.x ≥ world_min.x then point.x
    else if point.x < world_min.x then world_min.x
    else if point.x > world_max.x then world_max.x
    else if point.x - world_min.x > world_max.x - point.x then world_max.x
    else world_min.x
  let ny :=
    if point.y ≤ world_max.y ∧ point.y ≥ world_min.y then point.y
    else if point.y < world_min.y then world_min.y
    else if point.y > world_max.y then world_max.y
    else if point.y - world_min.y > world_max.y - point.y then world_max.y
    else world_min.y
  ⟨nx, ny⟩

/-- `f32::EPSILON = 2⁻²³`, the default tolerance of `approx::abs_diff_eq!`. -/
def fEPS : ℝ := 1 / 2 ^ 23

/-- `is_close_to_zero` (`src/collider.rs` lines 48–50):
`abs_diff_eq!(v.x, 0.0) && abs_diff_eq!(v.y, 0.0)` with the default epsilon. -/
def is_close_to_zero (v : Vec2) : Prop := |v.x| ≤ fEPS ∧ |v.y| ≤ fEPS

/-- The normal selection of `test_circle_aabb` (`src/collider.rs`
lines 96–120) before normalization: the collision vector itself, or — when
that vector is within `f32::EPSILON` of zero — the axis normal of the
nearest box face, chosen by the source's four sequential `if` statements
(a later matching `if` overwrites an earlier one). -/
def circle_aabb_raw_normal (circle_world_pos world_min world_max
    collision_vector : Vec2) : Vec2 :=
  if is_close_to_zero collision_vector then
    let distance_left := |circle_world_pos.x - world_min.x|
    let distance_right := |circle_world_pos.x - world_max.x|
    let distance_bottom := |circle_world_pos.y - world_min.y|
    let distance_top := |circle_world_pos.y - world_max.y|
    let min_distance :=
      min distance_left (min distance_right (min distance_bottom distance_top))
    let n1 := if min_distance = distance_left then Vec2.neg Vec2.unitX
      else collision_vector
    let n2 := if min_distance = distance_right then Vec2.unitX else n1
    let n3 := if min_distance = distance_bottom then Vec2.neg Vec2.unitY else n2
    if min_distance = distance_top then Vec2.unitY else n3
  else collision_vector

/-- `test_circle_aabb` (`src/collider.rs` lines 74–139).  The first index
parameter is stored as `body_a_index`, the second as `body_b_index`. -/
def test_circle_aabb (circle aabb : Collider)
    (circle_body aabb_body : RigidBody2D)
    (circle_index aabb_index : ℕ) : Option Contact :=
  match circle, aabb with
  | Collider.circle offset radius, Collider.aabb boxMin boxMax =>
    let circle_world_pos := Vec2.add circle_body.position offset
    let nearest_point_to_center :=
      point_aabb_nearest_point circle_world_pos boxMin boxMax aabb_body.position
    let dist := Vec2.distance nearest_point_to_center circle_world_pos
    let collision_vector := Vec2.sub nearest_point_to_center circle_world_pos
    let world_min := Vec2.add boxMin aabb_body.position
    let world_max := Vec2.add boxMax aabb_body.position
    let normal := Vec2.normalize
      (circle_aabb_raw_normal circle_world_pos world_min world_max collision_vector)
    if dist < radius then
      some
        { point := nearest_point_to_center
          normal := normal
          pen_depth := radius - dist
          body_a_index := circle_index
          body_b_index := aabb_index }
    else none
  | _, _ => none

/-- `test_aabb_circle` (`src/collider.rs` lines 51–72): delegates to
`test_circle_aabb` with swapped shape arguments (and the index arguments
passed so that the produced contact keeps the caller's A/B order), then
negates the returned normal. -/
def test_aabb_circle (aabb circle : Collider)
    (aabb_body circle_body : RigidBody2D)
    (aabb_index circle_index : ℕ) : Option Contact :=
  match test_circle_aabb circle aabb circle_body aabb_body aabb_index circle_index with
  | none => none
  | some contact => some { contact with normal := Vec2.smul (-1) contact.normal }

/-- `Collider::collides_with` (`src/collider.rs` lines 157–281): the four
narrow-phase tests (circle–circle, box–circle, circle–box, box–box). -/
def Collider.collides_with (collider_a : Collider)
    (body_a body_b : RigidBody2D) (collider_b : Collider)
    (body_a_index body_b_index : ℕ) : Option Contact :=
  match collider_a, collider_b with
  | Collider.circle offset_a radius_a, Collider.circle offset_b radius_b =>
    let pos_a := Vec2.add body_a.position offset_a
    let pos_b := Vec2.add body_b.position offset_b
    let position_difference := Vec2.sub pos_b pos_a
    let dist := Vec2.distance pos_a pos_b
    if dist < radius_a + radius_b then
      let normal := Vec2.divs position_difference dist
      let surface_a := Vec2.add pos_a (Vec2.smul radius_a normal)
      let surface_b := Vec2.sub pos_b (Vec2.smul radius_b normal)
      let point := Vec2.smul 0.5 (Vec2.add surface_a surface_b)
      some
        { point := point
          normal := normal
          pen_depth := radius_a + radius_b - dist
          body_a_index := body_a_index
          body_b_index := body_b_index }
    else none
  | Collider.aabb _ _, Collider.circle _ _ =>
    test_aabb_circle collider_a collider_b body_a body_b body_a_index body_b_index
  | Collider.circle _ _, Collider.aabb _ _ =>
    test_circle_aabb collider_a collider_b body_a body_b body_a_index body_b_index
  | Collider.aabb boxMin_a boxMax_a, Collider.aabb boxMin_b boxMax_b =>
    let min_a := Vec2.add body_a.position boxMin_a
    let max_a := Vec2.add body_a.position boxMax_a
    let min_b := Vec2.add body_b.position boxMin_b
    let max_b := Vec2.add body_b.position boxMax_b
    let is_colliding := max_a.x ≥ min_b.x ∧ max_b.x ≥ min_a.x ∧
      max_a.y ≥ min_b.y ∧ max_b.y ≥ min_a.y
    let overlap_min : Vec2 := ⟨max min_a.x min_b.x, max min_a.y min_b.y⟩
    let overlap_max : Vec2 := ⟨min max_a.x max_b.x, min max_a.y max_b.y⟩
    let contact_point := Vec2.smul 0.5 (Vec2.add overlap_min overlap_max)
    if is_colliding then
      let x_overlap := min max_a.x max_b.x - max min_a.x min_b.x
      let y_overlap := min max_a.y max_b.y - max min_a.y min_b.y
      let depth := min x_overlap y_overlap
      if depth < 0 then none
      else
        let normal :=
          if x_overlap > y_overlap then
            let top_penetration := max_a.y - min_b.y
            let bottom_penetration := max_b.y - min_a.y
            if bottom_penetration < top_penetration then Vec2.neg Vec2.unitY
            else Vec2.unitY
          else
            let left_penetration := max_a.x - min_b.x
            let right_penetration := max_b.x - min_a.x
            if left_penetration < right_penetration then Vec2.neg Vec2.unitX
            else Vec2.unitX
        some
          { point := contact_point
            normal := normal
            pen_depth := depth
            body_a_index := body_a_index
            body_b_index := body_b_index }
    else none

/-- `v_n` of `resolve_interpenetration` (`src/main.rs` line 694): relative
velocity along the contact normal, `(body_b.vel - body_a.vel).dot(normal)`. -/
def contact_v_n (body_a body_b : RigidBody2D) (normal : Vec2) : ℝ :=
  Vec2.dot (Vec2.sub body_b.vel body_a.vel) normal

/-- `slop` of `resolve_interpenetration` (`src/main.rs` line 697). -/
def slop : ℝ := 0.01

/-- `bias_factor` of `resolve_interpenetration` (`src/main.rs` line 701). -/
def bias_factor : ℝ := 0.2

/-- `bias_vel` of `resolve_interpenetration` (`src/main.rs` line 702):
`(bias_factor / dt) * f32::max(0.0, pen_depth - slop)`. -/
def bias_vel (dt pen_depth : ℝ) : ℝ :=
  (bias_factor / dt) * max 0 (pen_depth - slop)

/-- `k_n` of `resolve_interpenetration` (`src/main.rs` line 708): the
effective inverse mass `invMassA + invMassB`. -/
def contact_k_n (body_a body_b : RigidBody2D) : ℝ :=
  body_a.inverse_mass + body_b.inverse_mass

/-- The divisor of the normal-impulse formula.  The source (`src/main.rs`
line 714) divides by `k_n` unconditionally — `resolve_interpenetration`
contains no `k_n == 0` guard — so this is the denominator of a division that
is executed on every resolved contact. -/
def normal_impulse_divisor (body_a body_b : RigidBody2D) : ℝ :=
  contact_k_n body_a body_b

/-- `p_n` of `resolve_interpenetration` (`src/main.rs` lines 713–714):
`f32::max(((1.0 + restitution) * (-v_n + bias_vel)) / k_n, 0.0)` with
`restitution = body_a.restitution * body_b.restitution`. -/
def normal_impulse (body_a body_b : RigidBody2D) (contact : Contact) (dt : ℝ) : ℝ :=
  max (((1 + body_a.restitution * body_b.restitution) *
      (-contact_v_n body_a body_b contact.normal + bias_vel dt contact.pen_depth)) /
    normal_impulse_divisor body_a body_b) 0

/-- The body-updating core of `resolve_interpenetration` (`src/main.rs`
lines 687–723), acting on the two bodies selected by the contact's indices:
`p = p_n * normal` is applied to body B and its negation to body A, each
via `apply_impulse`, skipping static bodies. -/
def resolve_bodies (body_a body_b : RigidBody2D) (contact : Contact) (dt : ℝ) :
    RigidBody2D × RigidBody2D :=
  let p := Vec2.smul (normal_impulse body_a body_b contact dt) contact.normal
  (if body_a.is_static = true then body_a else body_a.apply_impulse (Vec2.neg p),
   if body_b.is_static = true then body_b else body_b.apply_impulse p)

/-- `check_collision` (`src/main.rs` lines 725–747): all-pairs sweep with
`i < b_index = i + 1 + j`; pairs missing a collider or a body are skipped. -/
def check_collision (objects : List Object) : List Contact :=
  (List.range objects.length).flatMap fun i =>
    (List.range (objects.length - (i + 1))).filterMap fun j =>
      let b_index := i + 1 + j
      match objects[i]?, objects[b_index]? with
      | some a, some b =>
        match a.collider, a.body, b.collider, b.body with
        | some collider_a, some body_a, some collider_b, some body_b =>
          collider_a.collides_with body_a body_b collider_b i b_index
        | _, _, _, _ => none
      | _, _ => none

/-- `gravity_acceleration` (`src/main.rs` lines 672–674). -/
def gravity_acceleration : Vec2 := ⟨0, -9.81⟩

/-- The force accumulated per body by `apply_gravity` (`src/main.rs`
line 756): `gravity_acceleration() / body.inverse_mass`, with no guard
against a zero inverse mass. -/
def gravity_force (body : RigidBody2D) : Vec2 :=
  Vec2.divs gravity_acceleration body.inverse_mass

/-- The per-object step of `apply_gravity` (`src/main.rs` lines 750–758):
objects missing a collider or a body are skipped. -/
def apply_gravity_obj (o : Object) : Object :=
  match o.collider, o.body with
  | some _, some body => { o with body := some (body.apply_force (gravity_force body)) }
  | _, _ => o

/-- `apply_gravity` (`src/main.rs` lines 750–758) over the object list. -/
def apply_gravity (objects : List Object) : List Object :=
  objects.map apply_gravity_obj

/-- The `RigidBody2DBuilder` struct (`src/rigid_body.rs` lines 4–18). -/
structure RigidBody2DBuilder where
  position : Vec2
  angle : ℝ
  angular_vel : ℝ
  vel : Vec2
  accum_force : Vec2
  accum_torque : ℝ
  inverse_mass : ℝ
  inverse_inertia : ℝ
  is_static : Bool
  shape : Option Collider
  restitution : ℝ
  mu : ℝ

/-- `RigidBody2DBuilder::new` (`src/rigid_body.rs` lines 21–36). -/
def RigidBody2DBuilder.new : RigidBody2DBuilder where
  position := Vec2.zero
  angle := 0
  angular_vel := 0
  vel := Vec2.zero
  accum_force := Vec2.zero
  accum_torque := 0
  inverse_mass := 1
  inverse_inertia := 1
  is_static := false
  shape := none
  restitution := 0.5
  mu := 0.3

/-- `RigidBody2DBuilder::build` (`src/rigid_body.rs` lines 83–121): a static
body gets inverse mass and inverse inertia `0`; otherwise, if a shape is
present, the field `inverse_inertia` is assigned
`(1/12) * m * (w² + h²)` for a box and `0.5 * m * r²` for a circle,
with `m = 1 / inverse_mass`. -/
def RigidBody2DBuilder.build (s : RigidBody2DBuilder) : RigidBody2D :=
  let rb : RigidBody2D :=
    { position := s.position
      angle := s.angle
      angular_vel := s.angular_vel
      vel := s.vel
      accum_force := s.accum_force
      accum_torque := s.accum_torque
      inverse_mass := s.inverse_mass
      inverse_inertia := s.inverse_inertia
      is_static := s.is_static
      restitution := s.restitution
      mu := s.mu }
  if rb.is_static = true then { rb with inverse_mass := 0, inverse_inertia := 0 }
  else
    match s.shape with
    | some (Collider.aabb boxMin boxMax) =>
      let h := |boxMax.y - boxMin.y|
      let w := |boxMax.x - boxMin.x|
      let m := 1 / s.inverse_mass
      { rb with inverse_inertia := (1 / 12) * m * (w * w + h * h) }
    | some (Collider.circle _ radius) =>
      let m := 1 / s.inverse_mass
      { rb with inverse_inertia := 0.5 * m * radius * radius }
    | none => rb

/-- Both colliders are circles whose world centers coincide exactly — the
degenerate configuration in which the circle–circle test divides by a zero
distance. -/
def coincident_circle_pair (collider_a collider_b : Collider)
    (body_a body_b : RigidBody2D) : Prop :=
  ∃ offset_a radius_a offset_b radius_b,
    collider_a = Collider.circle offset_a radius_a ∧
    collider_b = Collider.circle offset_b radius_b ∧
    Vec2.add body_a.position offset_a = Vec2.add body_b.position offset_b

/-- Modelled from the spec (§4.2 step 5): `clamp(x, lo, hi)`. -/
def spec_clamp (x lo hi : ℝ) : ℝ := max lo (min x hi)

/-- Modelled from the spec (§4.2 step 5): the normal rotated 90°
counterclockwise, one of the two possible fixed rotational senses. -/
def spec_rot90_ccw (n : Vec2) : Vec2 := ⟨-n.y, n.x⟩

/-- Modelled from the spec (§4.2 step 5): the normal rotated 90° clockwise,
the other possible fixed rotational sense. -/
def spec_rot90_cw (n : Vec2) : Vec2 := ⟨n.y, -n.x⟩

/-- Modelled from the spec (§4.2 step 5), for comparison with the source's
`resolve_interpenetration`: the tangential (friction) impulse magnitude
`Pt = clamp(-vt / k_n, -mu*Pn, mu*Pn)` with `vt = dot(relativeVelocity,
tangent)` and `mu = muA * muB`. -/
def spec_tangential_impulse (body_a body_b : RigidBody2D) (contact : Contact)
    (dt : ℝ) (tangent : Vec2) : ℝ :=
  let vt := Vec2.dot (Vec2.sub body_b.vel body_a.vel) tangent
  let mu := body_a.mu * body_b.mu
  let p_n := normal_impulse body_a body_b contact dt
  spec_clamp (-vt / contact_k_n body_a body_b) (-(mu * p_n)) (mu * p_n)

/-- Modelled from the spec (§4.2 step 6), for comparison with the source:
the claimed per-contact impulse `Pn * normal + Pt * tangent`. -/
def spec_impulse (body_a body_b : RigidBody2D) (contact : Contact) (dt : ℝ)
    (tangent : Vec2) : Vec2 :=
  Vec2.add (Vec2.smul (normal_impulse body_a body_b contact dt) contact.normal)
    (Vec2.smul (spec_tangential_impulse body_a body_b contact dt tangent) tangent)

/-- Modelled from the spec (§4.2 step 6): body B's velocity after receiving
the claimed impulse, `velocityB + impulse * inverseMassB`. -/
def spec_vel_b_after (body_a body_b : RigidBody2D) (contact : Contact) (dt : ℝ)
    (tangent : Vec2) : Vec2 :=
  Vec2.add body_b.vel
    (Vec2.smul body_b.inverse_mass (spec_impulse body_a body_b contact dt tangent))

/-- A dynamic body at position `p` with the builder's default parameters
(`RigidBody2DBuilder::new` defaults: unit inverse mass, restitution 0.5,
friction coefficient 0.3). -/
def bodyAt (p : Vec2) : RigidBody2D where
  position := p
  angle := 0
  angular_vel := 0
  vel := Vec2.zero
  accum_force := Vec2.zero
  accum_torque := 0
  inverse_mass := 1
  inverse_inertia := 1
  is_static := false
  restitution := 0.5
  mu := 0.3

/-- A static body at the origin (zero inverse mass and inverse inertia, as
`RigidBody2DBuilder::build` produces for `make_static`). -/
def staticBody : RigidBody2D :=
  { bodyAt Vec2.zero with is_static := true, inverse_mass := 0, inverse_inertia := 0 }

/-- Concrete body A for the friction counterexample: at rest, restitution 1. -/
def fricBodyA : RigidBody2D := { bodyAt Vec2.zero with restitution := 1 }

/-- Concrete body B for the friction counterexample: approaching A along the
contact normal while sliding tangentially, restitution 1. -/
def fricBodyB : RigidBody2D :=
  { bodyAt Vec2.zero with vel := ⟨-1, 1⟩, restitution := 1 }

/-- Concrete contact for the friction counterexample: unit normal `(1,0)`,
penetration below the solver's slop. -/
def fricContact : Contact :=
  { point := Vec2.zero, normal := ⟨1, 0⟩, pen_depth := 1 / 200
    body_a_index := 0, body_b_index := 1 }

/-- Concrete contact between two static bodies, for the `k_n = 0` claims. -/
def staticContact : Contact :=
  { point := Vec2.zero, normal := ⟨0, 1⟩, pen_depth := 1 / 10
    body_a_index := 0, body_b_index := 1 }

/-- Builder for a dynamic unit-mass body with a 2×2 box shape. -/
def boxBuilder : RigidBody2DBuilder :=
  { RigidBody2DBuilder.new with shape := some (Collider.aabb ⟨0, 0⟩ ⟨2, 2⟩) }

/-- Builder for a dynamic unit-mass body with a radius-2 circle shape. -/
def circleBuilder : RigidBody2DBuilder :=
  { RigidBody2DBuilder.new with shape := some (Collider.circle ⟨0, 0⟩ 2) }

/-- Concrete dynamic body exercising every updated field of `update`. -/
def updBody : RigidBody2D :=
  { bodyAt Vec2.zero with
    vel := ⟨1, 0⟩
    accum_force := ⟨0, -6⟩
    accum_torque := 12
    angular_vel := 2
    angle := 3 }

/-- First object of the concrete scene for `check_collision`: a 2×2 box. -/
def sceneObjA : Object :=
  { body := some (bodyAt Vec2.zero), collider := some (Collider.aabb ⟨0, 0⟩ ⟨2, 2⟩) }

/-- Second object of the concrete scene for `check_collision`: an overlapping
2×2 box shifted one unit to the right. -/
def sceneObjB : Object :=
  { body := some (bodyAt Vec2.zero), collider := some (Collider.aabb ⟨1, 0⟩ ⟨3, 2⟩) }

theorem Vec2.length_nonneg (v : Vec2) : 0 ≤ v.length :=
  Real.sqrt_nonneg _

theorem Vec2.length_pos (v : Vec2) (h : v ≠ Vec2.zero) : 0 < v.length := by
  apply Real.sqrt_pos.mpr
  rcases not_and_or.mp (fun hc : v.x = 0 ∧ v.y = 0 => h (by cases v; simp_all [Vec2.zero])) with hx | hy
  · nlinarith [sq_nonneg v.y, sq_abs v.x, abs_pos.mpr hx, sq_nonneg (|v.x| - 1), sq_nonneg v.x, mul_self_pos.mpr hx]
  · nlinarith [sq_nonneg v.x, mul_self_pos.mpr hy]

theorem Vec2.length_divs (v : Vec2) (c : ℝ) (hc : 0 < c) :
    (Vec2.divs v c).length = v.length / c := by
  unfold Vec2.length Vec2.divs
  have h1 : (v.x / c) ^ 2 + (v.y / c) ^ 2 = (v.x ^ 2 + v.y ^ 2) / c ^ 2 := by
    field_simp
  rw [h1, Real.sqrt_div (by positivity) (c ^ 2), Real.sqrt_sq hc.le]

theorem Vec2.normalize_length (v : Vec2) (h : v ≠ Vec2.zero) :
    (Vec2.normalize v).length = 1 := by
  have hp := Vec2.length_pos v h
  rw [Vec2.normalize, Vec2.length_divs v _ hp]
  exact div_self (ne_of_gt hp)

theorem Vec2.length_sub_comm (u v : Vec2) :
    (Vec2.sub u v).length = (Vec2.sub v u).length := by
  unfold Vec2.length Vec2.sub
  ring_nf

theorem Vec2.sub_ne_zero_of_ne {u v : Vec2} (h : u ≠ v) : Vec2.sub v u ≠ Vec2.zero := by
  intro hc
  apply h
  cases u with
  | mk ux uy =>
    cases v with
    | mk vx vy =>
      simp [Vec2.sub, Vec2.zero, Vec2.mk.injEq, sub_eq_zero] at hc
      simp [Vec2.mk.injEq, hc.1.symm, hc.2.symm]

theorem Vec2.length_smul_neg_one (v : Vec2) :
    (Vec2.smul (-1) v).length = v.length := by
  unfold Vec2.length Vec2.smul
  ring_nf

theorem Vec2.neg_zero_eq : Vec2.neg Vec2.zero = Vec2.zero := by
  simp [Vec2.neg, Vec2.zero]

theorem Vec2.smul_zero_vec (c : ℝ) : Vec2.smul c Vec2.zero = Vec2.zero := by
  simp [Vec2.smul, Vec2.zero]

theorem Vec2.zero_smul_vec (v : Vec2) : Vec2.smul 0 v = Vec2.zero := by
  simp [Vec2.smul, Vec2.zero]

theorem Vec2.add_zero_vec (v : Vec2) : Vec2.add v Vec2.zero = v := by
  cases v; simp [Vec2.add, Vec2.zero]

theorem RigidBody2D.apply_impulse_zero_mass (b : RigidBody2D) (imp : Vec2)
    (h : b.inverse_mass = 0) : b.apply_impulse imp = b := by
  cases b with
  | mk position angle angular_vel vel accum_force accum_torque im ii st re mu =>
    simp only [RigidBody2D.apply_impulse] at *
    simp_all [Vec2.zero_smul_vec, Vec2.add_zero_vec]

/-- Claim C7: `update` is a no-op for a static or zero-inverse-mass body;
otherwise it is semi-implicit Euler — velocity first, then position from the
already-updated velocity, with angular state integrated analogously — and it
resets `accum_force` and `accum_torque` to zero. -/
theorem update_semi_implicit_euler (b : RigidBody2D) (dt : ℝ) :
    ((b.is_static = true ∨ b.inverse_mass = 0) → b.update dt = b) ∧
    (b.is_static = false → b.inverse_mass ≠ 0 →
      b.update dt =
        { b with
          vel := Vec2.add b.vel (Vec2.smul (dt * b.inverse_mass) b.accum_force)
          position := Vec2.add b.position
            (Vec2.smul dt (Vec2.add b.vel (Vec2.smul (dt * b.inverse_mass) b.accum_force)))
          angular_vel := b.angular_vel + dt * b.inverse_inertia * b.accum_torque
          angle := b.angle + (b.angular_vel + dt * b.inverse_inertia * b.accum_torque) * dt
          accum_force := Vec2.zero
          accum_torque := 0 }) := by
  constructor
  · rintro (h | h) <;> simp [RigidBody2D.update, h]
  · intro hs hm
    simp [RigidBody2D.update, hs, hm]

/-- Witness for C7 at concrete inputs: the static body is untouched, and a
dynamic body with `vel = (1,0)`, `accum_force = (0,-6)`, `accum_torque = 12`,
`angular_vel = 2`, `angle = 3` stepped by `dt = 1/2` lands exactly on the
semi-implicit Euler values with cleared accumulators. -/
theorem update_semi_implicit_euler_witness :
    staticBody.update (1 / 2) = staticBody ∧
    updBody.update (1 / 2) =
      { updBody with
        vel := ⟨1, -3⟩
        position := ⟨1 / 2, -3 / 2⟩
        angular_vel := 8
        angle := 7
        accum_force := Vec2.zero
        accum_torque := 0 } := by
  constructor
  · exact (update_semi_implicit_euler staticBody (1 / 2)).1 (Or.inl rfl)
  · have h := (update_semi_implicit_euler updBody (1 / 2)).2 rfl (by norm_num [updBody, bodyAt])
    rw [h]
    norm_num [updBody, bodyAt, Vec2.add, Vec2.smul, Vec2.zero, Vec2.mk.injEq]

/-- Claim C1: the solver's normal impulse magnitude is exactly
`Pn = max(((1 + restitutionA*restitutionB) * (-vn + biasVelocity)) / k_n, 0)`
with `vn = dot(velB - velA, normal)`, `k_n = invMassA + invMassB` and
`biasVelocity = (0.2/dt) * max(0, penetrationDepth - 0.01)`; and for a
resting or separating pair (`vn ≥ 0` and `penetrationDepth ≤ slop`, with
nonnegative restitutions and inverse masses) the clamp makes the normal
impulse zero, so neither body's velocity changes. -/
theorem normal_impulse_formula (body_a body_b : RigidBody2D)
    (contact : Contact) (dt : ℝ) :
    normal_impulse body_a body_b contact dt =
      max (((1 + body_a.restitution * body_b.restitution) *
          (-(Vec2.dot (Vec2.sub body_b.vel body_a.vel) contact.normal) +
            (0.2 / dt) * max 0 (contact.pen_depth - 0.01))) /
        (body_a.inverse_mass + body_b.inverse_mass)) 0 ∧
    (0 ≤ body_a.restitution → 0 ≤ body_b.restitution →
      0 ≤ body_a.inverse_mass → 0 ≤ body_b.inverse_mass →
      0 ≤ contact_v_n body_a body_b contact.normal →
      contact.pen_depth ≤ slop →
      normal_impulse body_a body_b contact dt = 0 ∧
      (resolve_bodies body_a body_b contact dt).1.vel = body_a.vel ∧
      (resolve_bodies body_a body_b contact dt).2.vel = body_b.vel) := by
  constructor
  · rfl
  · intro hra hrb hma hmb hvn hpen
    have hb : bias_vel dt contact.pen_depth = 0 := by
      unfold bias_vel
      have h0 : contact.pen_depth - slop ≤ 0 := by linarith
      rw [max_eq_left h0, mul_zero]
    have hnum : (1 + body_a.restitution * body_b.restitution) *
        (-contact_v_n body_a body_b contact.normal + bias_vel dt contact.pen_depth) ≤ 0 := by
      rw [hb]
      have he : 0 ≤ body_a.restitution * body_b.restitution := mul_nonneg hra hrb
      nlinarith
    have hk : 0 ≤ normal_impulse_divisor body_a body_b := by
      unfold normal_impulse_divisor contact_k_n
      linarith
    have hq : (1 + body_a.restitution * body_b.restitution) *
        (-contact_v_n body_a body_b contact.normal + bias_vel dt contact.pen_depth) /
        normal_impulse_divisor body_a body_b ≤ 0 :=
      div_nonpos_iff.mpr (Or.inr ⟨hnum, hk⟩)
    have hpn : normal_impulse body_a body_b contact dt = 0 := by
      unfold normal_impulse
      exact max_eq_right hq
    refine ⟨hpn, ?_, ?_⟩
    · unfold resolve_bodies
      rw [hpn, Vec2.zero_smul_vec]
      by_cases hstat : body_a.is_static = true <;>
        simp [hstat, Vec2.neg_zero_eq, RigidBody2D.apply_impulse,
          Vec2.smul_zero_vec, Vec2.add_zero_vec]
    · unfold resolve_bodies
      rw [hpn, Vec2.zero_smul_vec]
      by_cases hstat : body_b.is_static = true <;>
        simp [hstat, RigidBody2D.apply_impulse,
          Vec2.smul_zero_vec, Vec2.add_zero_vec]

/-- Witness for C1: a separating pair (body B moving away at `vn = 1 ≥ 0`,
penetration `0 ≤ slop`) receives zero normal impulse and keeps both
velocities. -/
theorem normal_impulse_formula_witness :
    normal_impulse (bodyAt Vec2.zero) { bodyAt Vec2.zero with vel := ⟨1, 0⟩ }
      { point := Vec2.zero, normal := ⟨1, 0⟩, pen_depth := 0,
        body_a_index := 0, body_b_index := 1 } 1 = 0 ∧
    (resolve_bodies (bodyAt Vec2.zero) { bodyAt Vec2.zero with vel := ⟨1, 0⟩ }
      { point := Vec2.zero, normal := ⟨1, 0⟩, pen_depth := 0,
        body_a_index := 0, body_b_index := 1 } 1).1.vel = (bodyAt Vec2.zero).vel ∧
    (resolve_bodies (bodyAt Vec2.zero) { bodyAt Vec2.zero with vel := ⟨1, 0⟩ }
      { point := Vec2.zero, normal := ⟨1, 0⟩, pen_depth := 0,
        body_a_index := 0, body_b_index := 1 } 1).2.vel =
      ({ bodyAt Vec2.zero with vel := ⟨1, 0⟩ } : RigidBody2D).vel :=
  (normal_impulse_formula (bodyAt Vec2.zero) { bodyAt Vec2.zero with vel := ⟨1, 0⟩ }
    { point := Vec2.zero, normal := ⟨1, 0⟩, pen_depth := 0,
      body_a_index := 0, body_b_index := 1 } 1).2
    (by norm_num [bodyAt]) (by norm_num [bodyAt]) (by norm_num [bodyAt])
    (by norm_num [bodyAt])
    (by norm_num [contact_v_n, bodyAt, Vec2.dot, Vec2.sub, Vec2.zero])
    (by norm_num [slop])

/-- Claim C5 (amended): the solver does not skip a `k_n = 0` contact — the
division by `k_n` is performed unconditionally, so when both inverse masses
are zero its denominator is zero (in IEEE arithmetic a division by zero) —
but since every applied impulse is scaled by the receiving body's zero
inverse mass (and static bodies are skipped), both bodies emerge unchanged. -/
theorem resolve_zero_k_n (body_a body_b : RigidBody2D) (contact : Contact)
    (dt : ℝ) (ha : body_a.inverse_mass = 0) (hb : body_b.inverse_mass = 0) :
    normal_impulse_divisor body_a body_b = 0 ∧
    resolve_bodies body_a body_b contact dt = (body_a, body_b) := by
  have hk : normal_impulse_divisor body_a body_b = 0 := by
    simp [normal_impulse_divisor, contact_k_n, ha, hb]
  refine ⟨hk, ?_⟩
  have hpn : normal_impulse body_a body_b contact dt = 0 := by
    unfold normal_impulse
    rw [hk, div_zero]
    simp
  unfold resolve_bodies
  rw [hpn, Vec2.zero_smul_vec]
  by_cases h1 : body_a.is_static = true <;> by_cases h2 : body_b.is_static = true <;>
    simp [h1, h2, Vec2.neg_zero_eq, body_a.apply_impulse_zero_mass Vec2.zero ha,
      body_b.apply_impulse_zero_mass Vec2.zero hb]

/-- Claim C5 counterexample: for a contact between two static bodies (both
inverse masses zero) the solver does not skip — the impulse magnitude is
still computed and the division by `k_n` it contains has denominator exactly
`0` (in the source's `f32` arithmetic, a division by zero), contrary to the
claim that this division never happens; only the per-body `is_static` guards
leave the bodies unchanged. -/
theorem resolve_zero_k_n_cex :
    normal_impulse_divisor staticBody staticBody = 0 ∧
    normal_impulse staticBody staticBody staticContact (1 / 60) =
      max (((1 + staticBody.restitution * staticBody.restitution) *
          (-contact_v_n staticBody staticBody staticContact.normal +
            bias_vel (1 / 60) staticContact.pen_depth)) / 0) 0 ∧
    resolve_bodies staticBody staticBody staticContact (1 / 60) =
      (staticBody, staticBody) := by
  refine ⟨?_, ?_, ?_⟩
  · norm_num [normal_impulse_divisor, contact_k_n, staticBody, bodyAt]
  · unfold normal_impulse
    norm_num [normal_impulse_divisor, contact_k_n, staticBody, bodyAt]
  · simp [resolve_bodies, staticBody, bodyAt]

/-- Witness for C5 (amended) at a distinct concrete contact and timestep. -/
theorem resolve_zero_k_n_witness :
    normal_impulse_divisor staticBody staticBody = 0 ∧
    resolve_bodies staticBody staticBody fricContact 1 = (staticBody, staticBody) :=
  resolve_zero_k_n staticBody staticBody fricContact 1
    (by norm_num [staticBody, bodyAt]) (by norm_num [staticBody, bodyAt])

/-- Claim C6 (code bug): for a dynamic unit-mass body, `build` assigns
`inverse_inertia` the moment of inertia itself — `(1/12)·m·(w²+h²) = 2/3`
for the 2×2 box and `0.5·m·r² = 2` for the radius-2 circle — not the
reciprocals `3/2` and `1/2` that the claim (and the field's own name and its
use in `update`) call for. -/
theorem build_inverse_inertia_not_reciprocal :
    (RigidBody2DBuilder.build boxBuilder).inverse_inertia = 2 / 3 ∧
    (RigidBody2DBuilder.build circleBuilder).inverse_inertia = 2 ∧
    (1 : ℝ) / ((1 / 12) * 1 * (2 * 2 + 2 * 2)) = 3 / 2 ∧
    (1 : ℝ) / (0.5 * 1 * (2 * 2)) = 1 / 2 ∧
    ((2 : ℝ) / 3 ≠ 3 / 2) ∧ ((2 : ℝ) ≠ 1 / 2) := by
  norm_num [RigidBody2DBuilder.build, boxBuilder, circleBuilder, RigidBody2DBuilder.new]

/-- Claim C4 (amended): each solver pass applies exactly `Pn · normal` to
body B and its negation to body A via `apply_impulse` (each scaled by the
receiving body's own inverse mass), static bodies receive no impulse, and no
tangential (friction) impulse exists — the bodies' friction coefficients
`mu` never influence the resulting velocities. -/
theorem resolve_applies_only_normal_impulse (body_a body_b : RigidBody2D)
    (contact : Contact) (dt : ℝ) (x y : ℝ) :
    resolve_bodies body_a body_b contact dt =
      ((if body_a.is_static = true then body_a
        else body_a.apply_impulse
          (Vec2.neg (Vec2.smul (normal_impulse body_a body_b contact dt) contact.normal))),
       (if body_b.is_static = true then body_b
        else body_b.apply_impulse
          (Vec2.smul (normal_impulse body_a body_b contact dt) contact.normal))) ∧
    (resolve_bodies { body_a with mu := x } { body_b with mu := y } contact dt).1.vel =
      (resolve_bodies body_a body_b contact dt).1.vel ∧
    (resolve_bodies { body_a with mu := x } { body_b with mu := y } contact dt).2.vel =
      (resolve_bodies body_a body_b contact dt).2.vel := by
  refine ⟨rfl, ?_, ?_⟩ <;>
    by_cases h1 : body_a.is_static = true <;> by_cases h2 : body_b.is_static = true <;>
      simp [resolve_bodies, RigidBody2D.apply_impulse, normal_impulse, contact_v_n,
        contact_k_n, normal_impulse_divisor, h1, h2]

/-- Claim C4 counterexample: for an approaching, tangentially sliding pair
with default friction coefficients, the source solver leaves body B with
velocity `(0, 1)` (pure normal impulse), while the claimed
`Pn·normal + Pt·tangent` update yields `(0, 0.91)` for either 90° rotational
sense of the tangent — so the claimed friction impulse is not applied. -/
theorem resolve_no_friction_cex :
    (resolve_bodies fricBodyA fricBodyB fricContact 1).2.vel = ⟨0, 1⟩ ∧
    spec_vel_b_after fricBodyA fricBodyB fricContact 1
      (spec_rot90_ccw fricContact.normal) = ⟨0, 91 / 100⟩ ∧
    spec_vel_b_after fricBodyA fricBodyB fricContact 1
      (spec_rot90_cw fricContact.normal) = ⟨0, 91 / 100⟩ ∧
    (Vec2.mk 0 1 ≠ Vec2.mk 0 (91 / 100)) := by
  refine ⟨?_, ?_, ?_, ?_⟩
  · norm_num [resolve_bodies, normal_impulse, contact_v_n, contact_k_n,
      normal_impulse_divisor, bias_vel, slop, bias_factor, fricBodyA, fricBodyB,
      fricContact, bodyAt, RigidBody2D.apply_impulse, Vec2.dot, Vec2.sub, Vec2.add,
      Vec2.smul, Vec2.neg, Vec2.zero, max_def, min_def, Vec2.mk.injEq]
  · norm_num [spec_vel_b_after, spec_impulse, spec_tangential_impulse, spec_clamp,
      spec_rot90_ccw, normal_impulse, contact_v_n, contact_k_n,
      normal_impulse_divisor, bias_vel, slop, bias_factor, fricBodyA, fricBodyB,
      fricContact, bodyAt, Vec2.dot, Vec2.sub, Vec2.add,
      Vec2.smul, Vec2.zero, max_def, min_def, Vec2.mk.injEq]
  · norm_num [spec_vel_b_after, spec_impulse, spec_tangential_impulse, spec_clamp,
      spec_rot90_cw, normal_impulse, contact_v_n, contact_k_n,
      normal_impulse_divisor, bias_vel, slop, bias_factor, fricBodyA, fricBodyB,
      fricContact, bodyAt, Vec2.dot, Vec2.sub, Vec2.add,
      Vec2.smul, Vec2.zero, max_def, min_def, Vec2.mk.injEq]
  · simp only [ne_eq, Vec2.mk.injEq, not_and]
    intro
    norm_num

/-- Claim C10: `apply_gravity` accumulates `gravity / inverse_mass` with no
guard — for a body with nonzero inverse mass that is the finite weight
`mass · gravity`, while for `inverse_mass = 0` the executed division has
denominator zero and nonzero numerator (in `f32`, a non-finite force);
nevertheless such a body's position and velocity never change: `update`
returns early for static or zero-inverse-mass bodies and the solver never
applies impulses to static bodies. -/
theorem apply_gravity_division (b : RigidBody2D) (col : Collider)
    (body_a body_b : RigidBody2D) (contact : Contact) (dt : ℝ) :
    apply_gravity [⟨some b, some col⟩] =
      [⟨some (b.apply_force (gravity_force b)), some col⟩] ∧
    (b.inverse_mass ≠ 0 →
      (b.apply_force (gravity_force b)).accum_force =
        Vec2.add b.accum_force (Vec2.smul (1 / b.inverse_mass) gravity_acceleration)) ∧
    (b.inverse_mass = 0 →
      gravity_force b = Vec2.divs gravity_acceleration 0 ∧
      gravity_acceleration ≠ Vec2.zero ∧
      (b.update dt).position = b.position ∧ (b.update dt).vel = b.vel) ∧
    (body_a.is_static = true → (resolve_bodies body_a body_b contact dt).1 = body_a) ∧
    (body_b.is_static = true → (resolve_bodies body_a body_b contact dt).2 = body_b) := by
  refine ⟨?_, ?_, ?_, ?_, ?_⟩
  · simp [apply_gravity, apply_gravity_obj]
  · intro hm
    simp only [RigidBody2D.apply_force, gravity_force, gravity_acceleration,
      Vec2.divs, Vec2.smul, Vec2.add, Vec2.mk.injEq]
    constructor <;> ring
  · intro hm
    refine ⟨by rw [gravity_force, hm], ?_, ?_, ?_⟩
    · simp only [gravity_acceleration, Vec2.zero, ne_eq, Vec2.mk.injEq, not_and]
      intro
      norm_num
    · simp [RigidBody2D.update, hm]
    · simp [RigidBody2D.update, hm]
  · intro h
    simp [resolve_bodies, h]
  · intro h
    simp [resolve_bodies, h]

/-- Witness for C10: a half-mass body (`inverse_mass = 2`) accumulates the
finite weight `(1/2) · gravity`; the static body's `gravity_force` is the
zero-denominator division, its `update` moves nothing, and the solver leaves
it untouched. -/
theorem apply_gravity_division_witness :
    (({ bodyAt Vec2.zero with inverse_mass := 2 } : RigidBody2D).apply_force
        (gravity_force { bodyAt Vec2.zero with inverse_mass := 2 })).accum_force =
      Vec2.add ({ bodyAt Vec2.zero with inverse_mass := 2 } : RigidBody2D).accum_force
        (Vec2.smul (1 / 2) gravity_acceleration) ∧
    gravity_force staticBody = Vec2.divs gravity_acceleration 0 ∧
    (staticBody.update 1).position = staticBody.position ∧
    (staticBody.update 1).vel = staticBody.vel ∧
    (resolve_bodies staticBody staticBody staticContact 1).1 = staticBody := by
  have h1 := (apply_gravity_division { bodyAt Vec2.zero with inverse_mass := 2 }
    (Collider.circle Vec2.zero 1) staticBody staticBody staticContact 1).2.1
    (by norm_num [bodyAt])
  have h2 := (apply_gravity_division staticBody
    (Collider.circle Vec2.zero 1) staticBody staticBody staticContact 1).2.2.1
    (by norm_num [staticBody, bodyAt])
  have h3 := (apply_gravity_division staticBody
    (Collider.circle Vec2.zero 1) staticBody staticBody staticContact 1).2.2.2.1
    (by norm_num [staticBody, bodyAt])
  exact ⟨by rw [h1], h2.1, h2.2.2.1, h2.2.2.2, h3⟩

theorem test_circle_aabb_indices (circle aabb : Collider)
    (circle_body aabb_body : RigidBody2D) (ci ai : ℕ) (c : Contact)
    (h : test_circle_aabb circle aabb circle_body aabb_body ci ai = some c) :
    c.body_a_index = ci ∧ c.body_b_index = ai := by
  cases circle with
  | aabb _ _ => simp [test_circle_aabb] at h
  | circle off r =>
    cases aabb with
    | circle _ _ => simp [test_circle_aabb] at h
    | aabb mn mx =>
      simp only [test_circle_aabb] at h
      split at h
      · injection h with h
        subst h
        exact ⟨rfl, rfl⟩
      · exact absurd h (by simp)

theorem test_aabb_circle_indices (aabb circle : Collider)
    (aabb_body circle_body : RigidBody2D) (ai ci : ℕ) (c : Contact)
    (h : test_aabb_circle aabb circle aabb_body circle_body ai ci = some c) :
    c.body_a_index = ai ∧ c.body_b_index = ci := by
  unfold test_aabb_circle at h
  cases heq : test_circle_aabb circle aabb circle_body aabb_body ai ci with
  | none => rw [heq] at h; exact absurd h (by simp)
  | some ct =>
    rw [heq] at h
    injection h with h
    subst h
    exact test_circle_aabb_indices circle aabb circle_body aabb_body ai ci ct heq

theorem collides_with_indices (ca cb : Collider) (ba bb : RigidBody2D)
    (ia ib : ℕ) (c : Contact)
    (h : ca.collides_with ba bb cb ia ib = some c) :
    c.body_a_index = ia ∧ c.body_b_index = ib := by
  cases ca with
  | circle oa ra =>
    cases cb with
    | circle ob rb =>
      simp only [Collider.collides_with] at h
      split at h
      · injection h with h
        subst h
        exact ⟨rfl, rfl⟩
      · exact absurd h (by simp)
    | aabb mn mx =>
      simp only [Collider.collides_with] at h
      exact test_circle_aabb_indices _ _ _ _ _ _ _ h
  | aabb mna mxa =>
    cases cb with
    | circle ob rb =>
      simp only [Collider.collides_with] at h
      exact test_aabb_circle_indices _ _ _ _ _ _ _ h
    | aabb mnb mxb =>
      simp only [Collider.collides_with] at h
      split at h
      · split at h
        · exact absurd h (by simp)
        · injection h with h
          subst h
          exact ⟨rfl, rfl⟩
      · exact absurd h (by simp)

/-- Claim C9: every contact produced by `check_collision` has
`body_a_index < body_b_index` (in particular the indices differ) and
`body_b_index` within bounds — exactly the precondition under which
splitting the object list at `body_b_index` reaches two distinct cells:
the left part still holds index `body_a_index` and the right part starts
at index `body_b_index`. -/
theorem check_collision_index_invariant (objects : List Object) (c : Contact)
    (h : c ∈ check_collision objects) :
    c.body_a_index < c.body_b_index ∧ c.body_b_index < objects.length ∧
    (objects.take c.body_b_index)[c.body_a_index]? = objects[c.body_a_index]? ∧
    (objects.drop c.body_b_index)[0]? = objects[c.body_b_index]? := by
  unfold check_collision at h
  rw [List.mem_flatMap] at h
  obtain ⟨i, hi, h⟩ := h
  rw [List.mem_filterMap] at h
  obtain ⟨j, hj, h⟩ := h
  rw [List.mem_range] at hi
  rw [List.mem_range] at hj
  dsimp only at h
  have hidx : c.body_a_index = i ∧ c.body_b_index = i + 1 + j := by
    cases hA : objects[i]? with
    | none => rw [hA] at h; exact absurd h (by simp)
    | some a =>
      cases hB : objects[i + 1 + j]? with
      | none => rw [hA, hB] at h; exact absurd h (by simp)
      | some b =>
        rw [hA, hB] at h
        dsimp only at h
        cases hca : a.collider with
        | none => rw [hca] at h; exact absurd h (by simp)
        | some collider_a =>
          cases hba : a.body with
          | none => rw [hca, hba] at h; exact absurd h (by simp)
          | some body_a =>
            cases hcb : b.collider with
            | none => rw [hca, hba, hcb] at h; exact absurd h (by simp)
            | some collider_b =>
              cases hbb : b.body with
              | none => rw [hca, hba, hcb, hbb] at h; exact absurd h (by simp)
              | some body_b =>
                rw [hca, hba, hcb, hbb] at h
                exact collides_with_indices _ _ _ _ _ _ _ h
  obtain ⟨h1, h2⟩ := hidx
  refine ⟨by omega, by omega, ?_, ?_⟩
  · rw [List.getElem?_take, if_pos (by omega)]
  · rw [List.getElem?_drop]
    norm_num

/-- Witness for C9 at a concrete two-box scene producing one contact with
indices `0 < 1`. -/
theorem check_collision_index_invariant_witness :
    (0 : ℕ) < 1 ∧ 1 < [sceneObjA, sceneObjB].length ∧
    ([sceneObjA, sceneObjB].take 1)[0]? = [sceneObjA, sceneObjB][0]? ∧
    ([sceneObjA, sceneObjB].drop 1)[0]? = [sceneObjA, sceneObjB][1]? := by
  have h : (⟨⟨3 / 2, 1⟩, ⟨-1, 0⟩, 1, 0, 1⟩ : Contact) ∈
      check_collision [sceneObjA, sceneObjB] := by
    have he : check_collision [sceneObjA, sceneObjB] =
        [⟨⟨3 / 2, 1⟩, ⟨-1, 0⟩, 1, 0, 1⟩] := by
      norm_num [check_collision, sceneObjA, sceneObjB, bodyAt, Collider.collides_with,
        Vec2.add, Vec2.smul, Vec2.neg, Vec2.unitX, Vec2.unitY, Vec2.zero,
        List.range_succ, List.filterMap_cons, List.filterMap_nil,
        List.getElem?_cons_zero, List.getElem?_cons_succ,
        max_def, min_def, Vec2.mk.injEq, Contact.mk.injEq]
    rw [he]
    exact List.mem_singleton.mpr rfl
  exact check_collision_index_invariant [sceneObjA, sceneObjB] _ h

/-- Claim C3 counterexample: two unit circles with exactly coincident centers
are reported as colliding — `collides_with` returns a contact (with the
degenerate zero-divided normal, `(0,0)` in the real-valued model of the IEEE
division the source performs, and depth `rA + rB = 2`), not `None` as the
claim states. -/
theorem coincident_circles_cex :
    Collider.collides_with (Collider.circle ⟨0, 0⟩ 1) (bodyAt Vec2.zero)
      (bodyAt Vec2.zero) (Collider.circle ⟨0, 0⟩ 1) 0 1 =
      some ⟨⟨0, 0⟩, ⟨0, 0⟩, 2, 0, 1⟩ := by
  norm_num [Collider.collides_with, bodyAt, Vec2.add, Vec2.sub, Vec2.smul, Vec2.divs,
    Vec2.distance, Vec2.length, Vec2.zero, Contact.mk.injEq, Vec2.mk.injEq]

/-- Claim C3 (amended): the circle–circle test has no zero-distance guard:
for exactly coincident world centers with positive radius sum, the distance
`0` still satisfies `d < rA + rB`, so a contact is returned — its depth is
`rA + rB` and its normal is the zero vector divided by the zero distance
(the model value of the degenerate IEEE division the source executes) —
rather than the pair being treated as no-collision. -/
theorem coincident_circles_collide (offset_a : Vec2) (radius_a : ℝ)
    (offset_b : Vec2) (radius_b : ℝ) (body_a body_b : RigidBody2D) (ia ib : ℕ)
    (hpos : Vec2.add body_a.position offset_a = Vec2.add body_b.position offset_b)
    (hr : 0 < radius_a + radius_b) :
    Collider.collides_with (Collider.circle offset_a radius_a) body_a body_b
      (Collider.circle offset_b radius_b) ia ib =
      some ⟨Vec2.add body_a.position offset_a, Vec2.divs Vec2.zero 0,
        radius_a + radius_b, ia, ib⟩ := by
  simp only [Collider.collides_with]
  rw [← hpos]
  have hsub : Vec2.sub (Vec2.add body_a.position offset_a)
      (Vec2.add body_a.position offset_a) = Vec2.zero := by
    simp [Vec2.sub, Vec2.zero]
  have hdist : Vec2.distance (Vec2.add body_a.position offset_a)
      (Vec2.add body_a.position offset_a) = 0 := by
    simp [Vec2.distance, hsub, Vec2.length, Vec2.zero]
  simp only [hsub, hdist, sub_zero, if_pos hr]
  simp only [Vec2.divs, Vec2.zero, zero_div, Vec2.smul, mul_zero, Vec2.add, Vec2.sub,
    add_zero, sub_zero, Vec2.mk.injEq, Contact.mk.injEq, Option.some.injEq]
  norm_num
  constructor <;> ring

theorem Vec2.neg_neg_eq (v : Vec2) : Vec2.neg (Vec2.neg v) = v := by
  cases v
  simp [Vec2.neg]

theorem Vec2.length_unitX : Vec2.unitX.length = 1 := by
  rw [Vec2.length, Vec2.unitX]
  rw [show ((1 : ℝ) ^ 2 + (0 : ℝ) ^ 2) = 1 by norm_num, Real.sqrt_one]

theorem Vec2.length_unitY : Vec2.unitY.length = 1 := by
  rw [Vec2.length, Vec2.unitY]
  rw [show ((0 : ℝ) ^ 2 + (1 : ℝ) ^ 2) = 1 by norm_num, Real.sqrt_one]

theorem Vec2.length_neg_unitX : (Vec2.neg Vec2.unitX).length = 1 := by
  rw [Vec2.length, Vec2.unitX, Vec2.neg]
  norm_num

theorem Vec2.length_neg_unitY : (Vec2.neg Vec2.unitY).length = 1 := by
  rw [Vec2.length, Vec2.unitY, Vec2.neg]
  norm_num

theorem not_close_to_zero_ne_zero (v : Vec2) (h : ¬ is_close_to_zero v) :
    v ≠ Vec2.zero := by
  intro hz
  subst hz
  apply h
  constructor <;> simp [Vec2.zero, fEPS]

theorem ite_chain_axis (md dl dr db dtt : ℝ) (cv : Vec2)
    (hmd : md = dl ∨ md = dr ∨ md = db ∨ md = dtt) :
    (if md = dtt then Vec2.unitY
     else if md = db then Vec2.neg Vec2.unitY
     else if md = dr then Vec2.unitX
     else if md = dl then Vec2.neg Vec2.unitX else cv) ≠ Vec2.zero := by
  split_ifs with h1 h2 h3 h4
  · simp only [Vec2.unitY, Vec2.zero, ne_eq, Vec2.mk.injEq, not_and]
    intro
    norm_num
  · simp only [Vec2.unitY, Vec2.neg, Vec2.zero, ne_eq, Vec2.mk.injEq, not_and]
    intro
    norm_num
  · simp only [Vec2.unitX, Vec2.zero, ne_eq, Vec2.mk.injEq]
    intro hc
    exact absurd hc.1 (by norm_num)
  · simp only [Vec2.unitX, Vec2.neg, Vec2.zero, ne_eq, Vec2.mk.injEq]
    intro hc
    exact absurd hc.1 (by norm_num)
  · tauto

theorem circle_aabb_raw_normal_ne_zero (p wmin wmax cv : Vec2) :
    circle_aabb_raw_normal p wmin wmax cv ≠ Vec2.zero := by
  unfold circle_aabb_raw_normal
  by_cases hcz : is_close_to_zero cv
  · rw [if_pos hcz]
    exact ite_chain_axis
      (min |p.x - wmin.x| (min |p.x - wmax.x| (min |p.y - wmin.y| |p.y - wmax.y|)))
      |p.x - wmin.x| |p.x - wmax.x| |p.y - wmin.y| |p.y - wmax.y| cv
      (by
        rcases min_choice |p.x - wmin.x|
            (min |p.x - wmax.x| (min |p.y - wmin.y| |p.y - wmax.y|)) with h | h
        · exact Or.inl h
        · rcases min_choice |p.x - wmax.x| (min |p.y - wmin.y| |p.y - wmax.y|) with h' | h'
          · exact Or.inr (Or.inl (h.trans h'))
          · rcases min_choice |p.y - wmin.y| |p.y - wmax.y| with h'' | h''
            · exact Or.inr (Or.inr (Or.inl (h.trans (h'.trans h''))))
            · exact Or.inr (Or.inr (Or.inr (h.trans (h'.trans h'')))))
  · rw [if_neg hcz]
    exact not_close_to_zero_ne_zero cv hcz

theorem test_circle_aabb_contact (circle aabb : Collider)
    (circle_body aabb_body : RigidBody2D) (ci ai : ℕ) (c : Contact)
    (h : test_circle_aabb circle aabb circle_body aabb_body ci ai = some c) :
    0 ≤ c.pen_depth ∧ c.normal.length = 1 := by
  cases circle with
  | aabb _ _ => simp [test_circle_aabb] at h
  | circle off r =>
    cases aabb with
    | circle _ _ => simp [test_circle_aabb] at h
    | aabb mn mx =>
      simp only [test_circle_aabb] at h
      rw [Option.ite_none_right_eq_some] at h
      obtain ⟨hlt, heq⟩ := h
      injection heq with heq
      subst heq
      constructor
      · dsimp only
        linarith [hlt]
      · exact Vec2.normalize_length _ (circle_aabb_raw_normal_ne_zero _ _ _ _)

/-- Claim C2 (amended): every `Contact` returned by any of the four
narrow-phase tests of `collides_with` has `penetrationDepth ≥ 0`, and its
normal is unit length except in the degenerate case of two circles with
exactly coincident world centers (where the normal is a zero-divided vector);
circle tests return strictly positive depth, but the box–box test can return
a contact of exactly zero depth for touching boxes (see the counterexample),
so "never zero depth" does not hold. -/
theorem collides_with_contact_invariant (ca cb : Collider)
    (ba bb : RigidBody2D) (ia ib : ℕ) (c : Contact)
    (h : ca.collides_with ba bb cb ia ib = some c) :
    0 ≤ c.pen_depth ∧
    (¬ coincident_circle_pair ca cb ba bb → c.normal.length = 1) := by
  cases ca with
  | circle oa ra =>
    cases cb with
    | circle ob rb =>
      simp only [Collider.collides_with] at h
      rw [Option.ite_none_right_eq_some] at h
      obtain ⟨hlt, heq⟩ := h
      injection heq with heq
      subst heq
      refine ⟨?_, ?_⟩
      · dsimp only
        linarith [hlt]
      · intro hnd
        dsimp only
        have hne : Vec2.add ba.position oa ≠ Vec2.add bb.position ob := by
          intro hcc
          exact hnd ⟨oa, ra, ob, rb, rfl, rfl, hcc⟩
        have hd0 : 0 < Vec2.distance (Vec2.add ba.position oa)
            (Vec2.add bb.position ob) := by
          unfold Vec2.distance
          exact Vec2.length_pos _ (Vec2.sub_ne_zero_of_ne (Ne.symm hne))
        have hnum : Vec2.length (Vec2.sub (Vec2.add bb.position ob)
            (Vec2.add ba.position oa)) =
            Vec2.distance (Vec2.add ba.position oa) (Vec2.add bb.position ob) := by
          rw [Vec2.distance, Vec2.length_sub_comm]
        rw [Vec2.length_divs _ _ hd0, hnum]
        exact div_self (ne_of_gt hd0)
    | aabb mn mx =>
      simp only [Collider.collides_with] at h
      have hct := test_circle_aabb_contact _ _ _ _ _ _ _ h
      exact ⟨hct.1, fun _ => hct.2⟩
  | aabb mna mxa =>
    cases cb with
    | circle ob rb =>
      simp only [Collider.collides_with] at h
      unfold test_aabb_circle at h
      cases heq : test_circle_aabb (Collider.circle ob rb) (Collider.aabb mna mxa)
          bb ba ia ib with
      | none => rw [heq] at h; exact absurd h (by simp)
      | some ct =>
        rw [heq] at h
        injection h with h
        subst h
        have hct := test_circle_aabb_contact _ _ _ _ _ _ _ heq
        refine ⟨hct.1, fun _ => ?_⟩
        dsimp only
        rw [Vec2.length_smul_neg_one]
        exact hct.2
    | aabb mnb mxb =>
      simp only [Collider.collides_with] at h
      split at h
      · split at h
        · exact absurd h (by simp)
        · next hdep =>
          injection h with h
          subst h
          refine ⟨not_lt.mp hdep, fun _ => ?_⟩
          dsimp only
          split_ifs with h1 h2 h3
          · exact Vec2.length_neg_unitY
          · exact Vec2.length_unitY
          · exact Vec2.length_neg_unitX
          · exact Vec2.length_unitX
      · exact absurd h (by simp)

/-- Claim C2 counterexample: two boxes that exactly touch along an edge
(`maxA.x = minB.x`) are reported with a zero-depth contact — `collides_with`
returns a contact with `penetrationDepth = 0` rather than `None`, violating
"absence of contact is never a contact with negative or zero depth". -/
theorem zero_depth_contact_cex :
    Collider.collides_with (Collider.aabb ⟨0, 0⟩ ⟨1, 1⟩) (bodyAt Vec2.zero)
      (bodyAt Vec2.zero) (Collider.aabb ⟨1, 0⟩ ⟨2, 1⟩) 0 1 =
      some ⟨⟨1, 1 / 2⟩, ⟨-1, 0⟩, 0, 0, 1⟩ := by
  norm_num [Collider.collides_with, bodyAt, Vec2.add, Vec2.smul, Vec2.neg, Vec2.unitX,
    Vec2.unitY, Vec2.zero, max_def, min_def, Contact.mk.injEq, Vec2.mk.injEq]

/-- Witness for C2 (amended) at two overlapping boxes: depth `1 ≥ 0` and a
unit normal. -/
theorem collides_with_contact_invariant_witness :
    (0 : ℝ) ≤ (⟨⟨3 / 2, 1⟩, ⟨-1, 0⟩, 1, 0, 1⟩ : Contact).pen_depth ∧
    (¬ coincident_circle_pair (Collider.aabb ⟨0, 0⟩ ⟨2, 2⟩)
        (Collider.aabb ⟨1, 0⟩ ⟨3, 2⟩) (bodyAt Vec2.zero) (bodyAt Vec2.zero) →
      Vec2.length (⟨⟨3 / 2, 1⟩, ⟨-1, 0⟩, 1, 0, 1⟩ : Contact).normal = 1) := by
  apply collides_with_contact_invariant (Collider.aabb ⟨0, 0⟩ ⟨2, 2⟩)
    (Collider.aabb ⟨1, 0⟩ ⟨3, 2⟩) (bodyAt Vec2.zero) (bodyAt Vec2.zero) 0 1
  norm_num [Collider.collides_with, bodyAt, Vec2.add, Vec2.smul, Vec2.neg, Vec2.unitX,
    Vec2.unitY, Vec2.zero, max_def, min_def, Contact.mk.injEq, Vec2.mk.injEq]

/-- Claim C8 counterexample: for two identical boxes (an exact tie of the two
side-penetrations) both test orders return the same normal `(0,1)` — equal,
not antiparallel. -/
theorem box_box_tie_cex :
    Collider.collides_with (Collider.aabb ⟨0, 0⟩ ⟨2, 1⟩) (bodyAt Vec2.zero)
      (bodyAt Vec2.zero) (Collider.aabb ⟨0, 0⟩ ⟨2, 1⟩) 0 1 =
      some ⟨⟨1, 1 / 2⟩, ⟨0, 1⟩, 1, 0, 1⟩ ∧
    Collider.collides_with (Collider.aabb ⟨0, 0⟩ ⟨2, 1⟩) (bodyAt Vec2.zero)
      (bodyAt Vec2.zero) (Collider.aabb ⟨0, 0⟩ ⟨2, 1⟩) 1 0 =
      some ⟨⟨1, 1 / 2⟩, ⟨0, 1⟩, 1, 1, 0⟩ ∧
    (Vec2.mk 0 1 ≠ Vec2.neg (Vec2.mk 0 1)) := by
  refine ⟨?_, ?_, ?_⟩
  · norm_num [Collider.collides_with, bodyAt, Vec2.add, Vec2.smul, Vec2.neg, Vec2.unitX,
      Vec2.unitY, Vec2.zero, max_def, min_def, Contact.mk.injEq, Vec2.mk.injEq]
  · norm_num [Collider.collides_with, bodyAt, Vec2.add, Vec2.smul, Vec2.neg, Vec2.unitX,
      Vec2.unitY, Vec2.zero, max_def, min_def, Contact.mk.injEq, Vec2.mk.injEq]
  · simp only [Vec2.neg, ne_eq, Vec2.mk.injEq, not_and]
    intro
    norm_num

/-- Claim C8 (amended): box–box testing of `(A,B)` and `(B,A)` yields a
contact in exactly the same cases with equal `penetrationDepth`; whenever the
two side-penetrations along each axis are not exactly tied, the two normals
are exactly antiparallel (in an exact tie on the chosen axis both orders
return the same positive-axis normal, as the counterexample shows). -/
theorem box_box_symmetry (mna mxa mnb mxb : Vec2) (ba bb : RigidBody2D)
    (ia ib ia2 ib2 : ℕ) :
    ((Collider.aabb mna mxa).collides_with ba bb (Collider.aabb mnb mxb) ia ib
        = none ↔
      (Collider.aabb mnb mxb).collides_with bb ba (Collider.aabb mna mxa) ia2 ib2
        = none) ∧
    (∀ c1 c2,
      (Collider.aabb mna mxa).collides_with ba bb (Collider.aabb mnb mxb) ia ib
        = some c1 →
      (Collider.aabb mnb mxb).collides_with bb ba (Collider.aabb mna mxa) ia2 ib2
        = some c2 →
      c1.pen_depth = c2.pen_depth ∧
      (ba.position.y + mxa.y - (bb.position.y + mnb.y) ≠
          bb.position.y + mxb.y - (ba.position.y + mna.y) →
        ba.position.x + mxa.x - (bb.position.x + mnb.x) ≠
          bb.position.x + mxb.x - (ba.position.x + mna.x) →
        c2.normal = Vec2.neg c1.normal)) := by
  simp only [Collider.collides_with]
  dsimp only [Vec2.add]
  by_cases h1 : ba.position.x + mxa.x ≥ bb.position.x + mnb.x
  case neg => simp [h1]
  by_cases h2 : bb.position.x + mxb.x ≥ ba.position.x + mna.x
  case neg => simp [h2]
  by_cases h3 : ba.position.y + mxa.y ≥ bb.position.y + mnb.y
  case neg => simp [h3]
  by_cases h4 : bb.position.y + mxb.y ≥ ba.position.y + mna.y
  case neg => simp [h4]
  simp only [h1, h2, h3, h4, and_true, true_and, if_true]
  rw [min_comm (bb.position.x + mxb.x) (ba.position.x + mxa.x),
    max_comm (bb.position.x + mnb.x) (ba.position.x + mna.x),
    min_comm (bb.position.y + mxb.y) (ba.position.y + mxa.y),
    max_comm (bb.position.y + mnb.y) (ba.position.y + mna.y)]
  constructor
  · split_ifs with hdep <;> simp
  · intro c1 c2 hc1 hc2
    split at hc1
    · exact absurd hc1 (by simp)
    · next hdep =>
      split at hc2
      · next hdep2 => exact absurd hdep2 hdep
      · injection hc1 with hc1
        injection hc2 with hc2
        subst hc1
        subst hc2
        refine ⟨rfl, fun hy hx => ?_⟩
        dsimp only
        by_cases hxy :
            min (ba.position.x + mxa.x) (bb.position.x + mxb.x) -
              max (ba.position.x + mna.x) (bb.position.x + mnb.x) >
            min (ba.position.y + mxa.y) (bb.position.y + mxb.y) -
              max (ba.position.y + mna.y) (bb.position.y + mnb.y)
        · rw [if_pos hxy, if_pos hxy]
          rcases lt_or_gt_of_ne hy with hlt | hgt
          · rw [if_pos hlt, if_neg (not_lt.mpr hlt.le)]
          · rw [if_neg (not_lt.mpr hgt.le), if_pos hgt, Vec2.neg_neg_eq]
        · rw [if_neg hxy, if_neg hxy]
          rcases lt_or_gt_of_ne hx with hlt | hgt
          · rw [if_neg (not_lt.mpr hlt.le), if_pos hlt, Vec2.neg_neg_eq]
          · rw [if_pos hgt, if_neg (not_lt.mpr hgt.le)]

/-- Witness for C8 (amended) at two overlapping, untied boxes: both orders
collide with depth 1 and antiparallel normals `(-1,0)` and `(1,0)`. -/
theorem box_box_symmetry_witness :
    (⟨⟨3 / 2, 5 / 4⟩, ⟨-1, 0⟩, 1, 0, 1⟩ : Contact).pen_depth =
      (⟨⟨3 / 2, 5 / 4⟩, ⟨1, 0⟩, 1, 1, 0⟩ : Contact).pen_depth ∧
    (⟨⟨3 / 2, 5 / 4⟩, ⟨1, 0⟩, 1, 1, 0⟩ : Contact).normal =
      Vec2.neg (⟨⟨3 / 2, 5 / 4⟩, ⟨-1, 0⟩, 1, 0, 1⟩ : Contact).normal := by
  have h := (box_box_symmetry ⟨0, 0⟩ ⟨2, 2⟩ ⟨1, 1 / 2⟩ ⟨3, 5 / 2⟩
    (bodyAt Vec2.zero) (bodyAt Vec2.zero) 0 1 1 0).2
    ⟨⟨3 / 2, 5 / 4⟩, ⟨-1, 0⟩, 1, 0, 1⟩ ⟨⟨3 / 2, 5 / 4⟩, ⟨1, 0⟩, 1, 1, 0⟩
    (by norm_num [Collider.collides_with, bodyAt, Vec2.add, Vec2.smul, Vec2.neg,
      Vec2.unitX, Vec2.unitY, Vec2.zero, max_def, min_def, Contact.mk.injEq,
      Vec2.mk.injEq])
    (by norm_num [Collider.collides_with, bodyAt, Vec2.add, Vec2.smul, Vec2.neg,
      Vec2.unitX, Vec2.unitY, Vec2.zero, max_def, min_def, Contact.mk.injEq,
      Vec2.mk.injEq])
  exact ⟨h.1, h.2 (by norm_num [bodyAt]) (by norm_num [bodyAt])⟩

/-- Witness for C3 (amended) at circles of radii 2 and 3 centered together
at `(5,5)`. -/
theorem coincident_circles_collide_witness :
    Collider.collides_with (Collider.circle ⟨0, 0⟩ 2) (bodyAt ⟨5, 5⟩)
      (bodyAt ⟨5, 5⟩) (Collider.circle ⟨0, 0⟩ 3) 4 7 =
      some ⟨Vec2.add (bodyAt ⟨5, 5⟩).position ⟨0, 0⟩, Vec2.divs Vec2.zero 0,
        2 + 3, 4, 7⟩ :=
  coincident_circles_collide ⟨0, 0⟩ 2 ⟨0, 0⟩ 3 (bodyAt ⟨5, 5⟩) (bodyAt ⟨5, 5⟩) 4 7
    rfl (by norm_num)

end
